import Mathlib

/-!
Verification of the AutoConnect2 enhanced credential store and connection
orchestrator.  Every definition below is a shallow embedding of the
corresponding C++ entity in the repository sources
(AutoConnectError.h, AutoConnectRAII.h, AutoConnectCredentialEnhanced.h,
AutoConnectAdvancedConfig.h, AutoConnectCoreEnhanced.hpp).
Arduino String is modelled as Lean String, uint32_t values as Nat reduced
modulo 2^32 where overflow can matter, and the opaque external
collaborators (heap probe, radio connect primitive) as explicit parameters.
-/

namespace AutoConnect2

/-- Error enumeration, from AutoConnectError.h, enum class ACError. -/
inductive ACError
  | SUCCESS
  | WIFI_CONNECT_FAILED
  | WIFI_TIMEOUT
  | WIFI_CREDENTIALS_INVALID
  | JSON_PARSE_ERROR
  | JSON_BUFFER_OVERFLOW
  | FILESYSTEM_ERROR
  | FILESYSTEM_NOT_MOUNTED
  | FILE_NOT_FOUND
  | FILE_READ_ERROR
  | FILE_WRITE_ERROR
  | MEMORY_ALLOCATION_FAILED
  | MEMORY_INSUFFICIENT
  | TIMEOUT_EXCEEDED
  | INVALID_PARAMETER
  | INVALID_STATE
  | PORTAL_START_FAILED
  | WEBSERVER_ERROR
  | DNS_SERVER_ERROR
  | CREDENTIAL_STORE_ERROR
  | CREDENTIAL_LOAD_ERROR
  | UNKNOWN_ERROR
deriving DecidableEq

/-- Result wrapper, from AutoConnectError.h, struct ACResult.
The C++ constructor defaults the message to the empty String. -/
structure ACResult where
  error : ACError
  message : String
deriving DecidableEq

/-- Operator bool of ACResult: true exactly on SUCCESS. -/
def ACResult.isSuccess (r : ACResult) : Bool :=
  r.error = ACError.SUCCESS

/-- The uint32 modulus: Arduino unsigned long / uint32_t on ESP targets. -/
def U32 : Nat := 4294967296

/-- SecureString from AutoConnectRAII.h: a fixed-capacity zeroing buffer.
The buffer contents are modelled as the stored string (the buffer is
zero-filled beyond the stored bytes in the C++ code, so the stored string
determines the observable c_str/length state). -/
structure SecureString where
  capacity : Nat
  stored : String
deriving DecidableEq

/-- SecureString constructor: freshly allocated zeroed buffer, length 0. -/
def SecureString.ofCapacity (cap : Nat) : SecureString :=
  ⟨cap, ""⟩

/-- SecureString::length — the tracked length of the stored contents. -/
def SecureString.length (ss : SecureString) : Nat :=
  ss.stored.length

/-- SecureString::isEmpty. -/
def SecureString.isEmpty (ss : SecureString) : Bool :=
  ss.length = 0

/-- SecureString::set — rejects a string whose length reaches the capacity
(so a NUL terminator always fits); on success the buffer is re-zeroed and
the new contents copied in.  Returns the C++ bool result and the state of
the object after the call. -/
def SecureString.set (ss : SecureString) (str : String) : Bool × SecureString :=
  if str.length ≥ ss.capacity then
    (false, ss)
  else
    (true, ⟨ss.capacity, str⟩)

/-- SecureString::c_str as observable contents. -/
def SecureString.c_str (ss : SecureString) : String :=
  ss.stored

/-- Enhanced credential, from AutoConnectCredentialEnhanced.h,
struct EnhancedCredential.  IPAddress fields are modelled as raw uint32
values; bssid is a 6-byte list. -/
structure EnhancedCredential where
  ssid : SecureString
  password : SecureString
  bssid : List Nat
  staticIP : Nat
  gateway : Nat
  subnet : Nat
  dns1 : Nat
  dns2 : Nat
  useStatic : Bool
  timestamp : Nat
  connectionCount : Nat
  lastRSSI : Int
deriving DecidableEq

/-- EnhancedCredential default constructor: ssid capacity 33, password
capacity 64, zeroed bssid, DHCP, zero counters, RSSI floor. -/
def EnhancedCredential.make : EnhancedCredential :=
  { ssid := SecureString.ofCapacity 33
    password := SecureString.ofCapacity 64
    bssid := [0, 0, 0, 0, 0, 0]
    staticIP := 0
    gateway := 0
    subnet := 0
    dns1 := 0
    dns2 := 0
    useStatic := false
    timestamp := 0
    connectionCount := 0
    lastRSSI := -120 }

/-- EnhancedCredential::validate — the four checks, in source order. -/
def EnhancedCredential.validate (c : EnhancedCredential) : ACResult :=
  if c.ssid.isEmpty then
    ⟨ACError.INVALID_PARAMETER, "SSID cannot be empty"⟩
  else if c.ssid.length > 32 then
    ⟨ACError.INVALID_PARAMETER, "SSID too long"⟩
  else if c.password.length > 0 ∧ c.password.length < 8 then
    ⟨ACError.INVALID_PARAMETER, "Password too short"⟩
  else if c.password.length > 63 then
    ⟨ACError.INVALID_PARAMETER, "Password too long"⟩
  else
    ⟨ACError.SUCCESS, ""⟩

/-- EnhancedCredential::updateStats — timestamp from millis (a uint32
supplied by the caller of the model), connectionCount incremented with
uint32 wraparound, last RSSI recorded. -/
def EnhancedCredential.updateStats (c : EnhancedCredential) (now : Nat) (rssi : Int) :
    EnhancedCredential :=
  { c with
    timestamp := now % U32
    connectionCount := (c.connectionCount + 1) % U32
    lastRSSI := rssi }

/-- Store state, from AutoConnectCredentialEnhanced.h, class
AutoConnectCredentialEnhanced: the vector of credentials, the initialized
flag and the capacity bound. -/
structure CredentialStore where
  credentials : List EnhancedCredential
  initialized : Bool
  maxCredentials : Nat
deriving DecidableEq

/-- Store constructor AutoConnectCredentialEnhanced(maxCredentials):
empty vector, not initialized. -/
def CredentialStore.make (maxCredentials : Nat) : CredentialStore :=
  ⟨[], false, maxCredentials⟩

/-- Result of the private _saveCredentials stub: plain SUCCESS. -/
def saveCredentialsResult : ACResult :=
  ⟨ACError.SUCCESS, ""⟩

/-- AutoConnectCredentialEnhanced::initialize.  The private load stub
_loadExistingCredentials returns SUCCESS and loads nothing. -/
def CredentialStore.systemInit (s : CredentialStore) : ACResult × CredentialStore :=
  if s.initialized then
    (⟨ACError.SUCCESS, "Already initialized"⟩, s)
  else
    (⟨ACError.SUCCESS, "Credential system initialized"⟩, { s with initialized := true })

/-- Replacement of the first element with a matching ssid (the C++ code
finds the first match with std::find_if and assigns through the iterator). -/
def replaceFirstBySsid (c : EnhancedCredential) :
    List EnhancedCredential → List EnhancedCredential
  | [] => []
  | x :: xs =>
      if x.ssid.stored = c.ssid.stored then c :: xs
      else x :: replaceFirstBySsid c xs

/-- Erasure of the element returned by std::min_element over timestamps:
the first element of the list such that no later element has a strictly
smaller timestamp (std::min_element with a strict comparator returns the
first occurrence of the minimum).  On the empty list the C++ call would be
undefined behaviour; that case is unreachable because the caller only
erases when the vector size is at least maxCredentials ≥ 1. -/
def eraseOldest : List EnhancedCredential → List EnhancedCredential
  | [] => []
  | x :: xs =>
      if xs.all fun d => x.timestamp ≤ d.timestamp then xs
      else x :: eraseOldest xs

/-- AutoConnectCredentialEnhanced::addCredential — validation first (before
the initialization check), then in-place update of an existing ssid, else
eviction of the oldest entry when at capacity followed by push_back. -/
def CredentialStore.addCredential (s : CredentialStore) (c : EnhancedCredential) :
    ACResult × CredentialStore :=
  let validation := c.validate
  if validation.error ≠ ACError.SUCCESS then
    (validation, s)
  else if ¬ s.initialized then
    (⟨ACError.INVALID_STATE, "Credential system not initialized"⟩, s)
  else if s.credentials.any fun cr => cr.ssid.stored = c.ssid.stored then
    (saveCredentialsResult, { s with credentials := replaceFirstBySsid c s.credentials })
  else
    let kept :=
      if s.credentials.length ≥ s.maxCredentials then eraseOldest s.credentials
      else s.credentials
    (saveCredentialsResult, { s with credentials := kept ++ [c] })

/-- AutoConnectCredentialEnhanced::getCredential — empty-ssid guard first,
then the initialization check, then find-first-by-ssid; on success the
entry is returned by copy through the out parameter (modelled as Option). -/
def CredentialStore.getCredential (s : CredentialStore) (ssid : String) :
    ACResult × Option EnhancedCredential :=
  if ssid.isEmpty then
    (⟨ACError.INVALID_PARAMETER, "SSID cannot be empty"⟩, none)
  else if ¬ s.initialized then
    (⟨ACError.INVALID_STATE, "Credential system not initialized"⟩, none)
  else
    match s.credentials.find? fun cr => cr.ssid.stored = ssid with
    | none => (⟨ACError.CREDENTIAL_LOAD_ERROR, "Credential not found for SSID: " ++ ssid⟩, none)
    | some c => (⟨ACError.SUCCESS, ""⟩, some c)

/-- AutoConnectCredentialEnhanced::removeCredential — empty-ssid guard
first, then the initialization check, then erase of the first match. -/
def CredentialStore.removeCredential (s : CredentialStore) (ssid : String) :
    ACResult × CredentialStore :=
  if ssid.isEmpty then
    (⟨ACError.INVALID_PARAMETER, "SSID cannot be empty"⟩, s)
  else if ¬ s.initialized then
    (⟨ACError.INVALID_STATE, "Credential system not initialized"⟩, s)
  else
    match s.credentials.find? fun cr => cr.ssid.stored = ssid with
    | none => (⟨ACError.CREDENTIAL_LOAD_ERROR, "Credential not found for SSID: " ++ ssid⟩, s)
    | some _ =>
        (saveCredentialsResult,
         { s with credentials := s.credentials.eraseP fun cr => cr.ssid.stored = ssid })

/-- Insertion step of the timestamp-descending sort used by
getAvailableSSIDs (std::sort with the comparator timestampA > timestampB;
the algorithm is unspecified, any order consistent with the strict
comparator is a faithful model). -/
def insertByTimestampDesc (c : EnhancedCredential) :
    List EnhancedCredential → List EnhancedCredential
  | [] => [c]
  | d :: ds =>
      if c.timestamp > d.timestamp then c :: d :: ds
      else d :: insertByTimestampDesc c ds

/-- AutoConnectCredentialEnhanced::getAvailableSSIDs — collects the ssids
and sorts most-recently-used first.  Note that the C++ function returns a
plain vector<String>: it has no error channel and performs no
initialization check. -/
def CredentialStore.getAvailableSSIDs (s : CredentialStore) : List String :=
  (s.credentials.foldr insertByTimestampDesc []).map fun c => c.ssid.stored

/-- AutoConnectCredentialEnhanced::clearAll — empties the vector and saves;
the function performs no initialization check. -/
def CredentialStore.clearAll (s : CredentialStore) : ACResult × CredentialStore :=
  (saveCredentialsResult, { s with credentials := [] })

/-- Replacement of every occurrence of one character by a string, scanning
left to right and never rescanning replacement text: the behaviour of
Arduino String::replace for the single-character patterns used by
InputSanitizer::sanitizeHTML. -/
def replaceChar (c : Char) (rep : List Char) : List Char → List Char
  | [] => []
  | x :: xs => (if x = c then rep else [x]) ++ replaceChar c rep xs

/-- InputSanitizer::sanitizeHTML from AutoConnectRAII.h: the five
replacements, in source order (ampersand first). -/
def sanitizeHTML (input : String) : String :=
  let s1 := replaceChar '&' "&amp;".data input.data
  let s2 := replaceChar '<' "&lt;".data s1
  let s3 := replaceChar '>' "&gt;".data s2
  let s4 := replaceChar '"' "&quot;".data s3
  let s5 := replaceChar '\'' "&#x27;".data s4
  String.mk s5

/-- One entry of AutoConnectCredentialEnhanced::exportToJSON: the exact
StringBuilder append/appendFormat sequence for one credential (the
sanitized ssid for %s, true/false for the bool, decimal digits for the two
%u fields). -/
def credentialJSON (c : EnhancedCredential) : String :=
  "\x7b" ++
  "\"ssid\":\"" ++ sanitizeHTML c.ssid.stored ++ "\"," ++
  "\"useStatic\":" ++ (if c.useStatic then "true" else "false") ++ "," ++
  "\"timestamp\":" ++ toString c.timestamp ++ "," ++
  "\"connectionCount\":" ++ toString c.connectionCount ++
  "\x7d"

/-- AutoConnectCredentialEnhanced::exportToJSON — builds the JSON document
(entries separated by commas) and returns SUCCESS together with the
produced string; the function performs no initialization check and reads
only ssid, useStatic, timestamp and connectionCount of each entry. -/
def CredentialStore.exportToJSON (s : CredentialStore) : ACResult × String :=
  (⟨ACError.SUCCESS, ""⟩,
   "\x7b\"credentials\":[" ++
     String.intercalate "," (s.credentials.map credentialJSON) ++ "]\x7d")

/-- Modelled from the spec: section 6 gives the export snapshot wire format
\x7b"credentials":[\x7b"ssid": string, "useStatic": bool, "timestamp": uint,
"connectionCount": uint\x7d, ...]\x7d with exactly these four keys per entry in
this order, secrets never included, and section 4.2 requires the SSID to be
escaped against markup injection before embedding. -/
def exportSnapshotSpec (s : CredentialStore) : String :=
  "\x7b\"credentials\":[" ++
    String.intercalate ","
      (s.credentials.map fun c =>
        "\x7b\"ssid\":\"" ++ sanitizeHTML c.ssid.stored ++ "\"" ++
        ",\"useStatic\":" ++ (if c.useStatic then "true" else "false") ++
        ",\"timestamp\":" ++ toString c.timestamp ++
        ",\"connectionCount\":" ++ toString c.connectionCount ++ "\x7d") ++
  "]\x7d"

/-- Erasure of the secret of a credential: the view of a credential with
its password blanked, used to state that the export depends on nothing
else. -/
def eraseSecret (c : EnhancedCredential) : EnhancedCredential :=
  { c with password := SecureString.ofCapacity 64 }

/-- TimeoutHelper from AutoConnectRAII.h: start instant and timeout, both
uint32 millisecond values. -/
structure TimeoutHelper where
  startTime : Nat
  timeout : Nat
deriving DecidableEq

/-- Unsigned 32-bit subtraction a - b, as computed on unsigned long. -/
def usub32 (a b : Nat) : Nat :=
  (a % U32 + (U32 - b % U32)) % U32

/-- TimeoutHelper::elapsed — millis() - _startTime in uint32 arithmetic,
with the current millis value supplied as an argument. -/
def TimeoutHelper.elapsed (h : TimeoutHelper) (now : Nat) : Nat :=
  usub32 now h.startTime

/-- TimeoutHelper::isExpired — elapsed has reached the timeout. -/
def TimeoutHelper.isExpired (h : TimeoutHelper) (now : Nat) : Bool :=
  h.elapsed now ≥ h.timeout

/-- TimeoutHelper::remaining — zero once expired, otherwise the unsigned
difference _timeout - elapsed. -/
def TimeoutHelper.remaining (h : TimeoutHelper) (now : Nat) : Nat :=
  let e := h.elapsed now
  if e ≥ h.timeout then 0 else usub32 h.timeout e

/-- InputSanitizer::isValidSSID. -/
def isValidSSID (ssid : String) : Bool :=
  ssid.length > 0 ∧ ssid.length ≤ 32

/-- InputSanitizer::isValidPassword. -/
def isValidPassword (password : String) : Bool :=
  password.length = 0 ∨ (password.length ≥ 8 ∧ password.length ≤ 63)

/-- InputSanitizer::isValidHostname. -/
def isValidHostname (hostname : String) : Bool :=
  if hostname.length = 0 ∨ hostname.length > 63 then false
  else if hostname.data.all fun c => c.isAlphanum ∨ c = '-' then
    hostname.data.head? ≠ some '-' ∧ hostname.data.getLast? ≠ some '-'
  else false

/-- Network configuration, from AutoConnectAdvancedConfig.h,
struct NetworkConfig (IPAddress fields as raw uint32 values). -/
structure NetworkConfig where
  ssid : String
  password : String
  hostname : String
  staticIP : Nat
  gateway : Nat
  subnet : Nat
  dns1 : Nat
  dns2 : Nat
  useStaticIP : Bool
  validateCertificates : Bool
  connectionTimeoutMs : Nat
  maxRetries : Nat
deriving DecidableEq

/-- NetworkConfig::validate — the four checks in source order. -/
def NetworkConfig.validate (c : NetworkConfig) : ACResult :=
  if ¬ isValidSSID c.ssid then
    ⟨ACError.INVALID_PARAMETER, "Invalid SSID"⟩
  else if ¬ isValidPassword c.password then
    ⟨ACError.INVALID_PARAMETER, "Invalid password"⟩
  else if ¬ c.hostname.isEmpty ∧ ¬ isValidHostname c.hostname then
    ⟨ACError.INVALID_PARAMETER, "Invalid hostname"⟩
  else if c.connectionTimeoutMs < 5000 ∨ c.connectionTimeoutMs > 300000 then
    ⟨ACError.INVALID_PARAMETER, "Connection timeout out of range (5-300 seconds)"⟩
  else
    ⟨ACError.SUCCESS, ""⟩

/-- Outcome of one call of the opaque connect primitive
beginWithResult(ssid, password, timeoutMs): the returned result and the
wall-clock milliseconds the call consumed. -/
structure AttemptSpec where
  result : ACResult
  duration : Nat
deriving DecidableEq

/-- External collaborators of connectToWiFi: the heap probe, the results of
the hostname / static-IP / DNS sub-steps, whether the primary DNS of the
config is set, and the connect primitive (indexed by the zero-based number
of failed attempts made so far). -/
structure ConnectEnv where
  memOk : Bool
  hostnameResult : ACResult
  staticIPResult : ACResult
  dnsResult : ACResult
  attempts : Nat → AttemptSpec

/-- Retry loop of AutoConnectCore::connectToWiFi (source lines 136-158).
A TimeoutHelper with budget connectionTimeoutMs is started at time 0, so
its elapsed value at absolute loop time t is t % 2^32.  Each iteration
checks retries < maxRetries and the budget, invokes the connect primitive,
returns its result on success, otherwise increments retries and sleeps
1000 ms when further retries remain.  The fuel argument is maxRetries -
retries, which bounds the iteration count; the Nat in the result is the
number of attempts made. -/
def connectLoop (budget maxRetries : Nat) (attempts : Nat → AttemptSpec) :
    Nat → Nat → Nat → ACResult × Nat
  | 0, retries, _ =>
      (⟨ACError.WIFI_CONNECT_FAILED,
        "Failed to connect after " ++ toString retries ++ " attempts"⟩, retries)
  | fuel + 1, retries, t =>
      if retries < maxRetries ∧ ¬ (t % U32 ≥ budget) then
        let a := attempts retries
        if a.result.error = ACError.SUCCESS then
          (a.result, retries + 1)
        else
          connectLoop budget maxRetries attempts fuel (retries + 1)
            (t + a.duration + (if retries + 1 < maxRetries then 1000 else 0))
      else
        (⟨ACError.WIFI_CONNECT_FAILED,
          "Failed to connect after " ++ toString retries ++ " attempts"⟩, retries)

/-- AutoConnectCore::connectToWiFi (source lines 104-159): validation,
memory check, non-fatal hostname step, fatal static-IP/DNS steps when
useStaticIP is set, then the retry loop.  The Nat in the result is the
number of connect attempts made (0 when a prologue step aborts). -/
def connectToWiFi (cfg : NetworkConfig) (env : ConnectEnv) : ACResult × Nat :=
  let validation := cfg.validate
  if validation.error ≠ ACError.SUCCESS then
    (validation, 0)
  else if ¬ env.memOk then
    (⟨ACError.MEMORY_INSUFFICIENT, "Insufficient memory for WiFi connection"⟩, 0)
  else if cfg.useStaticIP ∧ env.staticIPResult.error ≠ ACError.SUCCESS then
    (env.staticIPResult, 0)
  else if cfg.useStaticIP ∧ cfg.dns1 ≠ 0 ∧ env.dnsResult.error ≠ ACError.SUCCESS then
    (env.dnsResult, 0)
  else
    connectLoop cfg.connectionTimeoutMs cfg.maxRetries env.attempts cfg.maxRetries 0 0

/-- Credential-store effect of connectToWiFi: the function body (source
lines 104-159) contains no reference to any credential store — it neither
reads nor writes one — so a call leaves any store exactly as it was.
EnhancedCredential::updateStats exists but has no caller in the
repository. -/
def connectToWiFiWithStore (cfg : NetworkConfig) (env : ConnectEnv)
    (store : CredentialStore) : (ACResult × Nat) × CredentialStore :=
  (connectToWiFi cfg env, store)

/-- Test fixture: a credential built through the constructor followed by
successful ssid.set / password.set calls. -/
def mkCred (ss pw : String) (ts : Nat) : EnhancedCredential :=
  { EnhancedCredential.make with
    ssid := ⟨33, ss⟩
    password := ⟨64, pw⟩
    timestamp := ts }

/-- Repeated insertion: folding addCredential over a list of credentials,
the harness used to state the capacity/eviction properties. -/
def addAll (s : CredentialStore) (cs : List EnhancedCredential) : CredentialStore :=
  cs.foldl (fun t c => (t.addCredential c).2) s

/-- Concrete uninitialized store holding one credential. -/
def storeC1 : CredentialStore :=
  ⟨[mkCred "homenet" "secretpw" 42], false, 10⟩

/-- Concrete network configuration: valid, 3 retries, 30 s timeout. -/
def cfgC2 : NetworkConfig :=
  { ssid := "homenet", password := "password1", hostname := "",
    staticIP := 0, gateway := 0, subnet := 0, dns1 := 0, dns2 := 0,
    useStaticIP := false, validateCertificates := false,
    connectionTimeoutMs := 30000, maxRetries := 3 }

/-- Concrete environment: the first attempt fails after 1000 ms, the second
succeeds after 500 ms. -/
def envC2 : ConnectEnv :=
  { memOk := true
    hostnameResult := ⟨ACError.SUCCESS, ""⟩
    staticIPResult := ⟨ACError.SUCCESS, ""⟩
    dnsResult := ⟨ACError.SUCCESS, ""⟩
    attempts := fun n =>
      if n = 0 then ⟨⟨ACError.WIFI_CONNECT_FAILED, "WiFi connection failed"⟩, 1000⟩
      else ⟨⟨ACError.SUCCESS, "WiFi connection established"⟩, 500⟩ }

/-- Concrete initialized store whose entry matches cfgC2's ssid with
connectionCount 0. -/
def storeC2 : CredentialStore :=
  ⟨[mkCred "homenet" "password1" 100], true, 10⟩

/-- Concrete network configuration for the budget-limited scenario:
maxRetries 5, connectionTimeoutMs 10000 (which in the code is both the
per-attempt timeout passed to the connect primitive and the overall
wall-clock budget of the retry loop). -/
def cfgC3 : NetworkConfig :=
  { ssid := "homenet", password := "password1", hostname := "",
    staticIP := 0, gateway := 0, subnet := 0, dns1 := 0, dns2 := 0,
    useStaticIP := false, validateCertificates := false,
    connectionTimeoutMs := 10000, maxRetries := 5 }

/-- Concrete environment in which every attempt fails after consuming the
full 10000 ms per-attempt timeout. -/
def envC3 : ConnectEnv :=
  { memOk := true
    hostnameResult := ⟨ACError.SUCCESS, ""⟩
    staticIPResult := ⟨ACError.SUCCESS, ""⟩
    dnsResult := ⟨ACError.SUCCESS, ""⟩
    attempts := fun _ => ⟨⟨ACError.WIFI_CONNECT_FAILED, "WiFi connection failed"⟩, 10000⟩ }

/-- Appending strings concatenates their character lists. -/
theorem string_data_append (a b : String) : (a ++ b).data = a.data ++ b.data :=
  rfl

/-- Strings with the same character list are equal. -/
theorem string_eq_of_data {a b : String} (h : a.data = b.data) : a = b := by
  cases a
  cases b
  exact congrArg String.mk h

/-- C7: a password is accepted by the Validator exactly when its length is
0 or lies in [8, 63]; the boundary lengths 7 and 64 are rejected while 0, 8
and 63 are accepted. -/
theorem C7_password_validation :
    (∀ p : String, isValidPassword p = true ↔
      (p.length = 0 ∨ (8 ≤ p.length ∧ p.length ≤ 63)))
    ∧ isValidPassword "" = true
    ∧ isValidPassword "abcdefg" = false
    ∧ isValidPassword "abcdefgh" = true
    ∧ isValidPassword (String.mk (List.replicate 63 'a')) = true
    ∧ isValidPassword (String.mk (List.replicate 64 'a')) = false := by
  refine ⟨fun p => ?_, by decide, by decide, by decide, by decide, by decide⟩
  simp [isValidPassword, ge_iff_le]

/-- C8: on any store state, initialized or not, a lookup or a removal with
an empty SSID fails with INVALID_PARAMETER and the message "SSID cannot be
empty", before the initialization check is reached, and the store is left
unchanged. -/
theorem C8_empty_ssid_before_init_check (s : CredentialStore) :
    s.getCredential "" = (⟨ACError.INVALID_PARAMETER, "SSID cannot be empty"⟩, none)
    ∧ s.removeCredential "" = (⟨ACError.INVALID_PARAMETER, "SSID cannot be empty"⟩, s) := by
  have hemp : "".isEmpty = true := rfl
  constructor
  · simp [CredentialStore.getCredential, hemp]
  · simp [CredentialStore.removeCredential, hemp]

/-- C9: SecureString::set succeeds exactly when the new length is below the
capacity; a failed set leaves the object unchanged, a successful set makes
length() the new length; consequently the strict length < capacity bound is
preserved, so an ssid buffer of capacity 33 never holds more than 32 bytes
and a password buffer of capacity 64 never holds more than 63 bytes. -/
theorem C9_secure_string_set (cap : Nat) (content str : String) :
    ((SecureString.set ⟨cap, content⟩ str).1 = true ↔ str.length < cap)
    ∧ ((SecureString.set ⟨cap, content⟩ str).1 = false →
        (SecureString.set ⟨cap, content⟩ str).2 = ⟨cap, content⟩)
    ∧ ((SecureString.set ⟨cap, content⟩ str).1 = true →
        (SecureString.set ⟨cap, content⟩ str).2.length = str.length)
    ∧ ((SecureString.length ⟨cap, content⟩ < cap →
        (SecureString.set ⟨cap, content⟩ str).2.length < cap))
    ∧ (SecureString.ofCapacity 33).length ≤ 32
    ∧ (cap = 33 → SecureString.length ⟨cap, content⟩ < cap →
        (SecureString.set ⟨cap, content⟩ str).2.length ≤ 32)
    ∧ (cap = 64 → SecureString.length ⟨cap, content⟩ < cap →
        (SecureString.set ⟨cap, content⟩ str).2.length ≤ 63) := by
  by_cases h : str.length ≥ cap
  · have hset : SecureString.set ⟨cap, content⟩ str = (false, ⟨cap, content⟩) := by
      simp [SecureString.set, h]
    refine ⟨?_, ?_, ?_, ?_, by decide, ?_, ?_⟩
    · rw [hset]
      simp
      omega
    · intro _
      rw [hset]
    · intro htrue
      rw [hset] at htrue
      simp at htrue
    · intro hlen
      rw [hset]
      simpa [SecureString.length] using hlen
    · intro hcap hlen
      subst hcap
      rw [hset]
      revert hlen
      simp [SecureString.length]
      omega
    · intro hcap hlen
      subst hcap
      rw [hset]
      revert hlen
      simp [SecureString.length]
      omega
  · have hset : SecureString.set ⟨cap, content⟩ str = (true, ⟨cap, str⟩) := by
      simp [SecureString.set, h]
    refine ⟨?_, ?_, ?_, ?_, by decide, ?_, ?_⟩
    · rw [hset]
      simp
      omega
    · intro hfalse
      rw [hset] at hfalse
      simp at hfalse
    · intro _
      rw [hset]
      simp [SecureString.length]
    · intro _
      rw [hset]
      simp [SecureString.length]
      omega
    · intro hcap _
      subst hcap
      rw [hset]
      simp [SecureString.length]
      omega
    · intro hcap _
      subst hcap
      rw [hset]
      simp [SecureString.length]
      omega

/-- Witness for C9 at capacity 33 with concrete contents. -/
theorem C9_secure_string_set_witness :
    (SecureString.set ⟨33, "oldssid"⟩ "newssid").2.length ≤ 32 :=
  (C9_secure_string_set 33 "oldssid" "newssid").2.2.2.2.2.1 rfl (by decide)

/-- C10: for every TimeoutHelper with a representable timeout and any
current instant, remaining() is the exact difference timeout - elapsed when
elapsed < timeout and 0 otherwise (the guarded unsigned subtraction never
wraps), and remaining() is 0 exactly when isExpired() holds. -/
theorem C10_timeout_remaining (h : TimeoutHelper) (now : Nat) (htm : h.timeout < U32) :
    (h.remaining now =
      if h.elapsed now < h.timeout then h.timeout - h.elapsed now else 0)
    ∧ (h.remaining now = 0 ↔ h.isExpired now = true) := by
  have he : h.elapsed now < U32 := by
    have : 0 < U32 := by decide
    exact Nat.mod_lt _ this
  constructor
  · by_cases hcase : h.elapsed now ≥ h.timeout
    · simp [TimeoutHelper.remaining, hcase, Nat.not_lt.mpr hcase]
    · have hlt : h.elapsed now < h.timeout := Nat.lt_of_not_ge hcase
      simp only [TimeoutHelper.remaining, if_neg hcase, if_pos hlt, usub32]
      have h1 : h.timeout % U32 = h.timeout := Nat.mod_eq_of_lt htm
      have h2 : h.elapsed now % U32 = h.elapsed now := Nat.mod_eq_of_lt he
      rw [h1, h2]
      simp only [U32] at htm he ⊢
      omega
  · by_cases hcase : h.elapsed now ≥ h.timeout
    · simp [TimeoutHelper.remaining, TimeoutHelper.isExpired, hcase]
    · have hlt : h.elapsed now < h.timeout := Nat.lt_of_not_ge hcase
      have h1 : h.timeout % U32 = h.timeout := Nat.mod_eq_of_lt htm
      have h2 : h.elapsed now % U32 = h.elapsed now := Nat.mod_eq_of_lt he
      simp only [TimeoutHelper.remaining, if_neg hcase, TimeoutHelper.isExpired, usub32, h1, h2]
      simp only [U32] at htm he hlt ⊢
      constructor
      · intro hz
        omega
      · intro hx
        simp at hx
        omega

/-- Witness for C10 at a concrete helper and instant. -/
theorem C10_timeout_remaining_witness :
    (TimeoutHelper.remaining ⟨100, 5000⟩ 2100 =
      if TimeoutHelper.elapsed ⟨100, 5000⟩ 2100 < 5000
      then 5000 - TimeoutHelper.elapsed ⟨100, 5000⟩ 2100 else 0)
    ∧ (TimeoutHelper.remaining ⟨100, 5000⟩ 2100 = 0 ↔
        TimeoutHelper.isExpired ⟨100, 5000⟩ 2100 = true) :=
  C10_timeout_remaining ⟨100, 5000⟩ 2100 (by decide)

/-- Inserting into the timestamp-descending order adds one element. -/
theorem insertByTimestampDesc_length (c : EnhancedCredential)
    (l : List EnhancedCredential) :
    (insertByTimestampDesc c l).length = l.length + 1 := by
  induction l with
  | nil => rfl
  | cons d ds ih =>
      simp only [insertByTimestampDesc]
      split
      · simp
      · simp [ih]

/-- The timestamp-descending sort preserves the number of entries. -/
theorem getAvailableSSIDs_length (s : CredentialStore) :
    (s.getAvailableSSIDs).length = s.credentials.length := by
  simp only [CredentialStore.getAvailableSSIDs, List.length_map]
  induction s.credentials with
  | nil => rfl
  | cons d ds ih => simp [insertByTimestampDesc_length, ih]

/-- C1 counterexample: on an uninitialized store, clearAll does not fail
with INVALID_STATE — it returns SUCCESS and it mutates the store. -/
theorem C1_counterexample_clearAll_uninitialized :
    storeC1.initialized = false
    ∧ storeC1.clearAll.1.error = ACError.SUCCESS
    ∧ storeC1.clearAll.1.error ≠ ACError.INVALID_STATE
    ∧ storeC1.clearAll.2 ≠ storeC1 := by
  decide

/-- C1 (amended): before initialization, addCredential (on a credential
that passes validation), getCredential and removeCredential (on a nonempty
SSID) fail with INVALID_STATE and leave the store unchanged; but clearAll,
getAvailableSSIDs and exportToJSON perform no initialization check:
clearAll empties the store and reports SUCCESS, exportToJSON reports
SUCCESS, and getAvailableSSIDs returns the stored SSIDs. -/
theorem C1_amended_initialization_checks (s : CredentialStore)
    (c : EnhancedCredential) (ssid : String)
    (hinit : s.initialized = false)
    (hc : c.validate.error = ACError.SUCCESS)
    (hs : ssid ≠ "") :
    s.addCredential c = (⟨ACError.INVALID_STATE, "Credential system not initialized"⟩, s)
    ∧ s.getCredential ssid = (⟨ACError.INVALID_STATE, "Credential system not initialized"⟩, none)
    ∧ s.removeCredential ssid = (⟨ACError.INVALID_STATE, "Credential system not initialized"⟩, s)
    ∧ s.clearAll = (⟨ACError.SUCCESS, ""⟩, { s with credentials := [] })
    ∧ (s.exportToJSON).1 = ⟨ACError.SUCCESS, ""⟩
    ∧ (s.getAvailableSSIDs).length = s.credentials.length := by
  have hne : ssid.isEmpty = false := by
    cases hemp : ssid.isEmpty
    · rfl
    · exact absurd ((String.isEmpty_iff ssid).mp hemp) hs
  refine ⟨?_, ?_, ?_, rfl, rfl, getAvailableSSIDs_length s⟩
  · simp [CredentialStore.addCredential, hc, hinit]
  · simp [CredentialStore.getCredential, hne, hinit]
  · simp [CredentialStore.removeCredential, hne, hinit]

/-- Witness for the amended C1 on a concrete uninitialized store. -/
theorem C1_amended_initialization_checks_witness :
    storeC1.getCredential "homenet" =
      (⟨ACError.INVALID_STATE, "Credential system not initialized"⟩, none) :=
  (C1_amended_initialization_checks storeC1 (mkCred "othernet" "password1" 7)
    "homenet" rfl (by decide) (by decide)).2.1

/-- In-place update of an existing ssid keeps the number of entries. -/
theorem replaceFirstBySsid_length (c : EnhancedCredential)
    (l : List EnhancedCredential) :
    (replaceFirstBySsid c l).length = l.length := by
  induction l with
  | nil => rfl
  | cons x xs ih =>
      simp only [replaceFirstBySsid]
      split
      · simp
      · simp [ih]

/-- Every entry surviving an eviction was already in the store. -/
theorem eraseOldest_subset {d : EnhancedCredential}
    {l : List EnhancedCredential} (hd : d ∈ eraseOldest l) : d ∈ l := by
  induction l with
  | nil => simp [eraseOldest] at hd
  | cons x xs ih =>
      simp only [eraseOldest] at hd
      split at hd
      · exact List.mem_cons_of_mem _ hd
      · rcases List.mem_cons.mp hd with h | h
        · exact h ▸ List.mem_cons_self x xs
        · exact List.mem_cons_of_mem _ (ih h)

/-- An eviction removes exactly one entry. -/
theorem eraseOldest_length {l : List EnhancedCredential} (h : l ≠ []) :
    (eraseOldest l).length + 1 = l.length := by
  induction l with
  | nil => exact absurd rfl h
  | cons x xs ih =>
      simp only [eraseOldest]
      split
      · simp
      · rename_i hall
        have hxs : xs ≠ [] := by
          intro he
          subst he
          simp at hall
        have := ih hxs
        simp only [List.length_cons]
        omega

/-- Characterization of an eviction: the removed entry is the first one
carrying the minimal timestamp — its timestamp is a lower bound for the
whole store, and every entry left of it is strictly younger. -/
theorem eraseOldest_spec :
    ∀ {l : List EnhancedCredential}, l ≠ [] →
      ∃ pre m post, l = pre ++ m :: post
        ∧ eraseOldest l = pre ++ post
        ∧ (∀ d ∈ l, m.timestamp ≤ d.timestamp)
        ∧ (∀ d ∈ pre, m.timestamp < d.timestamp) := by
  intro l
  induction l with
  | nil => intro h; exact absurd rfl h
  | cons x xs ih =>
      intro _
      by_cases hall : (xs.all fun d => x.timestamp ≤ d.timestamp) = true
      · refine ⟨[], x, xs, by simp, by simp [eraseOldest, hall], ?_, by simp⟩
        intro d hd
        rcases List.mem_cons.mp hd with h | h
        · subst h
          exact le_refl _
        · simpa using List.all_eq_true.mp hall d h
      · have hxs : xs ≠ [] := by
          intro he
          subst he
          simp at hall
        obtain ⟨pre, m, post, heq, herase, hmin, hpre⟩ := ih hxs
        have hex : ∃ d ∈ xs, d.timestamp < x.timestamp := by
          have h2 := hall
          simp only [List.all_eq_true, decide_eq_true_eq] at h2
          push_neg at h2
          exact h2
        obtain ⟨d0, hd0, hd0lt⟩ := hex
        have hmx : m.timestamp < x.timestamp := lt_of_le_of_lt (hmin d0 hd0) hd0lt
        refine ⟨x :: pre, m, post, by simp [heq], ?_, ?_, ?_⟩
        · simp only [eraseOldest, if_neg hall]
          simp [herase]
        · intro d hd
          rcases List.mem_cons.mp hd with h | h
          · subst h
            exact le_of_lt hmx
          · exact hmin d h
        · intro d hd
          rcases List.mem_cons.mp hd with h | h
          · subst h
            exact hmx
          · exact hpre d h

/-- addCredential never changes the initialized flag or the capacity. -/
theorem addCredential_preserves (s : CredentialStore) (c : EnhancedCredential) :
    (s.addCredential c).2.initialized = s.initialized
    ∧ (s.addCredential c).2.maxCredentials = s.maxCredentials := by
  by_cases h1 : c.validate.error ≠ ACError.SUCCESS
  · simp [CredentialStore.addCredential, h1]
  · by_cases h2 : s.initialized = true
    · by_cases h3 : (s.credentials.any fun cr => cr.ssid.stored = c.ssid.stored) = true
      · simp [CredentialStore.addCredential, h1, h2, h3]
      · simp [CredentialStore.addCredential, h1, h2, h3]
    · simp [CredentialStore.addCredential, h1, h2]

/-- addCredential keeps the store within capacity (capacity at least 1). -/
theorem addCredential_length_le (s : CredentialStore) (c : EnhancedCredential)
    (hcap : 1 ≤ s.maxCredentials) (hle : s.credentials.length ≤ s.maxCredentials) :
    (s.addCredential c).2.credentials.length ≤ s.maxCredentials := by
  by_cases h1 : c.validate.error ≠ ACError.SUCCESS
  · simpa [CredentialStore.addCredential, h1] using hle
  · by_cases h2 : s.initialized = true
    · by_cases h3 : (s.credentials.any fun cr => cr.ssid.stored = c.ssid.stored) = true
      · simpa [CredentialStore.addCredential, h1, h2, h3, replaceFirstBySsid_length]
          using hle
      · by_cases h4 : s.credentials.length ≥ s.maxCredentials
        · have hne : s.credentials ≠ [] := by
            intro he
            rw [he] at h4
            simp at h4
            omega
          have hel := eraseOldest_length hne
          simp only [CredentialStore.addCredential, h1, h2, h3, h4]
          simp
          omega
        · simp only [CredentialStore.addCredential, h1, h2, h3, h4]
          simp
          omega
    · simpa [CredentialStore.addCredential, h1, h2] using hle

/-- Insertion of a credential absent from the store: with validation
passing and the store initialized, addCredential evicts the oldest entry
when at capacity and then appends the new credential. -/
theorem addCredential_fresh (s : CredentialStore) (c : EnhancedCredential)
    (hinit : s.initialized = true)
    (hc : c.validate.error = ACError.SUCCESS)
    (hfresh : ∀ d ∈ s.credentials, d.ssid.stored ≠ c.ssid.stored) :
    (s.addCredential c).2 =
      { s with credentials :=
          (if s.credentials.length ≥ s.maxCredentials then eraseOldest s.credentials
           else s.credentials) ++ [c] } := by
  have hany : (s.credentials.any fun cr => cr.ssid.stored = c.ssid.stored) = false := by
    simp only [List.any_eq_false]
    intro cr hcr
    simpa using hfresh cr hcr
  simp [CredentialStore.addCredential, hc, hinit, hany]

/-- Unfolding of addAll on an empty list of insertions. -/
theorem addAll_nil (s : CredentialStore) : addAll s [] = s :=
  rfl

/-- Unfolding of addAll on a nonempty list of insertions. -/
theorem addAll_cons (s : CredentialStore) (c : EnhancedCredential)
    (cs : List EnhancedCredential) :
    addAll s (c :: cs) = addAll (s.addCredential c).2 cs :=
  rfl

/-- Any sequence of insertions keeps the store within capacity. -/
theorem addAll_le (cs : List EnhancedCredential) :
    ∀ s : CredentialStore, 1 ≤ s.maxCredentials →
      s.credentials.length ≤ s.maxCredentials →
      (addAll s cs).credentials.length ≤ s.maxCredentials := by
  induction cs with
  | nil =>
      intro s _ h
      simpa [addAll_nil] using h
  | cons c cs ih =>
      intro s hcap hle
      have h1 : (s.addCredential c).2.maxCredentials = s.maxCredentials :=
        (addCredential_preserves s c).2
      rw [addAll_cons, ← h1]
      exact ih _ (by rw [h1]; exact hcap)
        (by rw [h1]; exact addCredential_length_le s c hcap hle)

/-- Exact size of a store after inserting valid credentials with pairwise
distinct ssids that are all absent from the initial store. -/
theorem addAll_fresh_length (cs : List EnhancedCredential) :
    ∀ s : CredentialStore, s.initialized = true → 1 ≤ s.maxCredentials →
      s.credentials.length ≤ s.maxCredentials →
      (∀ c ∈ cs, c.validate.error = ACError.SUCCESS) →
      cs.Pairwise (fun a b => a.ssid.stored ≠ b.ssid.stored) →
      (∀ c ∈ cs, ∀ d ∈ s.credentials, d.ssid.stored ≠ c.ssid.stored) →
      (addAll s cs).credentials.length =
        min (s.credentials.length + cs.length) s.maxCredentials := by
  induction cs with
  | nil =>
      intro s _ _ hle _ _ _
      simp only [addAll_nil, List.length_nil]
      omega
  | cons c cs ih =>
      intro s hinit hcap hle hval hpair hfresh
      rcases List.pairwise_cons.mp hpair with ⟨hhead, htail⟩
      have hvc : c.validate.error = ACError.SUCCESS := hval c (by simp)
      have hfr : ∀ d ∈ s.credentials, d.ssid.stored ≠ c.ssid.stored :=
        fun d hd => hfresh c (by simp) d hd
      rw [addAll_cons, addCredential_fresh s c hinit hvc hfr]
      by_cases hfull : s.credentials.length ≥ s.maxCredentials
      · have hlen : s.credentials.length = s.maxCredentials := le_antisymm hle hfull
        have hne : s.credentials ≠ [] := by
          intro he
          rw [he] at hlen
          simp at hlen
          omega
        have hel := eraseOldest_length hne
        rw [if_pos hfull]
        have hres := ih { s with credentials := eraseOldest s.credentials ++ [c] }
          hinit hcap
          (by simp; omega)
          (fun c2 hc2 => hval c2 (List.mem_cons_of_mem _ hc2))
          htail
          (by
            intro c2 hc2 d hd
            simp only [List.mem_append, List.mem_singleton] at hd
            rcases hd with hd | hd
            · exact hfresh c2 (List.mem_cons_of_mem _ hc2) d (eraseOldest_subset hd)
            · subst hd
              exact hhead c2 hc2)
        rw [hres]
        simp
        omega
      · rw [if_neg hfull]
        have hres := ih { s with credentials := s.credentials ++ [c] }
          hinit hcap
          (by simp; omega)
          (fun c2 hc2 => hval c2 (List.mem_cons_of_mem _ hc2))
          htail
          (by
            intro c2 hc2 d hd
            simp only [List.mem_append, List.mem_singleton] at hd
            rcases hd with hd | hd
            · exact hfresh c2 (List.mem_cons_of_mem _ hc2) d hd
            · subst hd
              exact hhead c2 hc2)
        rw [hres]
        simp
        omega

/-- C4: inserting maxCredentials + 1 valid credentials with pairwise
distinct SSIDs into the empty initialized store of capacity maxCredentials
at least 1 leaves exactly maxCredentials entries; each eviction removes the
first entry carrying the minimal timestamp at eviction time (the
deterministic tie-break of std::min_element); and the size of the store
never exceeds maxCredentials along any insertion sequence. -/
theorem C4_capacity_eviction :
    (∀ (cap : Nat) (cs : List EnhancedCredential), 1 ≤ cap → cs.length = cap + 1 →
        (∀ c ∈ cs, c.validate.error = ACError.SUCCESS) →
        cs.Pairwise (fun a b => a.ssid.stored ≠ b.ssid.stored) →
        (addAll ((CredentialStore.make cap).systemInit.2) cs).credentials.length = cap)
    ∧ (∀ (s : CredentialStore) (c : EnhancedCredential),
        s.initialized = true → 1 ≤ s.maxCredentials →
        c.validate.error = ACError.SUCCESS →
        (∀ d ∈ s.credentials, d.ssid.stored ≠ c.ssid.stored) →
        s.credentials.length ≥ s.maxCredentials →
        ∃ pre m post, s.credentials = pre ++ m :: post
          ∧ (s.addCredential c).2.credentials = (pre ++ post) ++ [c]
          ∧ (∀ d ∈ s.credentials, m.timestamp ≤ d.timestamp)
          ∧ (∀ d ∈ pre, m.timestamp < d.timestamp))
    ∧ (∀ (cap : Nat) (cs : List EnhancedCredential), 1 ≤ cap →
        (addAll ((CredentialStore.make cap).systemInit.2) cs).credentials.length ≤ cap) := by
  refine ⟨?_, ?_, ?_⟩
  · intro cap cs hcap hlen hval hpair
    have h := addAll_fresh_length cs ((CredentialStore.make cap).systemInit.2)
      rfl hcap (by simp [CredentialStore.make, CredentialStore.systemInit])
      hval hpair
      (by
        intro c _ d hd
        simp [CredentialStore.make, CredentialStore.systemInit] at hd)
    have e1 : ((CredentialStore.make cap).systemInit.2).credentials.length = 0 := rfl
    have e2 : ((CredentialStore.make cap).systemInit.2).maxCredentials = cap := rfl
    rw [e1, e2] at h
    rw [h, hlen]
    omega
  · intro s c hinit hcap hvc hfresh hfull
    have hne : s.credentials ≠ [] := by
      intro he
      rw [he] at hfull
      simp at hfull
      omega
    obtain ⟨pre, m, post, heq, herase, hmin, hpre⟩ := eraseOldest_spec hne
    refine ⟨pre, m, post, heq, ?_, hmin, hpre⟩
    rw [addCredential_fresh s c hinit hvc hfresh]
    simp [if_pos hfull, herase]
  · intro cap cs hcap
    have h := addAll_le cs ((CredentialStore.make cap).systemInit.2)
      hcap (by simp [CredentialStore.make, CredentialStore.systemInit])
    simpa [CredentialStore.make, CredentialStore.systemInit] using h

/-- Witness for C4: capacity 1, two distinct valid credentials, the store
ends with exactly one entry. -/
theorem C4_capacity_eviction_witness :
    (addAll ((CredentialStore.make 1).systemInit.2)
      [mkCred "neta" "password1" 5, mkCred "netb" "password1" 3]).credentials.length = 1 :=
  C4_capacity_eviction.1 1 [mkCred "neta" "password1" 5, mkCred "netb" "password1" 3]
    (by decide) (by decide) (by decide) (by decide)

/-- Building a string from a character list is the inverse of data. -/
theorem mk_data (l : List Char) : (String.mk l).data = l :=
  rfl

/-- A character of a single-character replacement result comes from the
replacement text or is an untouched character of the input. -/
theorem replaceChar_mem {ch c : Char} {rep l : List Char}
    (h : ch ∈ replaceChar c rep l) : ch ∈ rep ∨ (ch ∈ l ∧ ch ≠ c) := by
  induction l with
  | nil => simp [replaceChar] at h
  | cons x xs ih =>
      simp only [replaceChar, List.mem_append] at h
      rcases h with h | h
      · by_cases hx : x = c
        · rw [if_pos hx] at h
          exact Or.inl h
        · rw [if_neg hx] at h
          simp only [List.mem_singleton] at h
          subst h
          exact Or.inr ⟨List.mem_cons_self ch xs, hx⟩
      · rcases ih h with h2 | ⟨h2, h3⟩
        · exact Or.inl h2
        · exact Or.inr ⟨List.mem_cons_of_mem _ h2, h3⟩

/-- The sanitized output contains none of the four markup-significant raw
characters: the angle brackets and both quote characters are all replaced
by their escape sequences. -/
theorem sanitizeHTML_no_markup (input : String) :
    ∀ ch ∈ (sanitizeHTML input).data,
      ch ≠ '<' ∧ ch ≠ '>' ∧ ch ≠ '"' ∧ ch ≠ '\'' := by
  intro ch hch
  have goal5 : ∀ x ∈ "&#x27;".data, x ≠ '<' ∧ x ≠ '>' ∧ x ≠ '"' ∧ x ≠ '\'' := by decide
  have goal4 : ∀ x ∈ "&quot;".data, x ≠ '<' ∧ x ≠ '>' ∧ x ≠ '"' ∧ x ≠ '\'' := by decide
  have goal3 : ∀ x ∈ "&gt;".data, x ≠ '<' ∧ x ≠ '>' ∧ x ≠ '"' ∧ x ≠ '\'' := by decide
  have goal2 : ∀ x ∈ "&lt;".data, x ≠ '<' ∧ x ≠ '>' ∧ x ≠ '"' ∧ x ≠ '\'' := by decide
  simp only [sanitizeHTML, mk_data] at hch
  rcases replaceChar_mem hch with h | ⟨h, hne5⟩
  · exact goal5 ch h
  rcases replaceChar_mem h with h2 | ⟨h2, hne4⟩
  · exact goal4 ch h2
  rcases replaceChar_mem h2 with h3 | ⟨h3, hne3⟩
  · exact goal3 ch h3
  rcases replaceChar_mem h3 with h4 | ⟨h4, hne2⟩
  · exact goal2 ch h4
  exact ⟨hne2, hne3, hne4, hne5⟩

/-- The two groupings of the per-entry concatenation produce the same
string, for any contents of the four variable fields. -/
theorem entry_shape (san b ts cnt : String) :
    "\x7b" ++ "\"ssid\":\"" ++ san ++ "\"," ++ "\"useStatic\":" ++ b ++ "," ++
      "\"timestamp\":" ++ ts ++ "," ++ "\"connectionCount\":" ++ cnt ++ "\x7d" =
    "\x7b\"ssid\":\"" ++ san ++ "\"" ++ ",\"useStatic\":" ++ b ++ ",\"timestamp\":" ++
      ts ++ ",\"connectionCount\":" ++ cnt ++ "\x7d" := by
  apply string_eq_of_data
  simp only [string_data_append, List.append_assoc]
  rfl

/-- The export matches the documented snapshot wire format: exactly the
keys ssid, useStatic, timestamp and connectionCount, in this order, with
the ssid sanitized. -/
theorem export_eq_spec (s : CredentialStore) :
    (s.exportToJSON).2 = exportSnapshotSpec s := by
  have hmap : s.credentials.map credentialJSON = s.credentials.map (fun c =>
      "\x7b\"ssid\":\"" ++ sanitizeHTML c.ssid.stored ++ "\"" ++
      ",\"useStatic\":" ++ (if c.useStatic then "true" else "false") ++
      ",\"timestamp\":" ++ toString c.timestamp ++
      ",\"connectionCount\":" ++ toString c.connectionCount ++ "\x7d") := by
    induction s.credentials with
    | nil => rfl
    | cons c cs ih =>
        simp only [List.map_cons, ih, credentialJSON]
        rw [entry_shape]
  simp only [CredentialStore.exportToJSON, exportSnapshotSpec]
  rw [hmap]

/-- Two stores whose credential lists agree after blanking the passwords
produce identical exports: the export depends on no password byte. -/
theorem export_password_independent (s1 s2 : CredentialStore)
    (hmap : s1.credentials.map eraseSecret = s2.credentials.map eraseSecret) :
    (s1.exportToJSON).2 = (s2.exportToJSON).2 := by
  have h1 : ∀ l : List EnhancedCredential,
      l.map credentialJSON = (l.map eraseSecret).map credentialJSON := by
    intro l
    rw [List.map_map]
    rfl
  simp only [CredentialStore.exportToJSON]
  rw [h1 s1.credentials, hmap, ← h1 s2.credentials]

/-- C5: the snapshot export contains no password material (two stores that
differ only in password contents export identically), each entry carries
exactly the four keys ssid, useStatic, timestamp, connectionCount in that
order per the documented wire format, and the embedded SSIDs are
HTML-sanitized, leaving no raw angle bracket or quote character. -/
theorem C5_export_no_secrets_escaped :
    (∀ s1 s2 : CredentialStore,
        s1.credentials.map eraseSecret = s2.credentials.map eraseSecret →
        (s1.exportToJSON).2 = (s2.exportToJSON).2)
    ∧ (∀ s : CredentialStore, (s.exportToJSON).2 = exportSnapshotSpec s)
    ∧ (∀ input : String, ∀ ch ∈ (sanitizeHTML input).data,
        ch ≠ '<' ∧ ch ≠ '>' ∧ ch ≠ '"' ∧ ch ≠ '\'') :=
  ⟨export_password_independent, export_eq_spec, sanitizeHTML_no_markup⟩

/-- Witness for C5: two concrete stores differing only in one password
export the same string. -/
theorem C5_export_no_secrets_escaped_witness :
    ((⟨[mkCred "homenet" "password1" 7], true, 10⟩ : CredentialStore).exportToJSON).2 =
    ((⟨[mkCred "homenet" "different9" 7], true, 10⟩ : CredentialStore).exportToJSON).2 :=
  C5_export_no_secrets_escaped.1
    ⟨[mkCred "homenet" "password1" 7], true, 10⟩
    ⟨[mkCred "homenet" "different9" 7], true, 10⟩
    (by decide)

/-- A network configuration that passes validation has a connection
timeout within the documented [5000, 300000] ms range. -/
theorem validate_timeout_range (cfg : NetworkConfig)
    (h : cfg.validate.error = ACError.SUCCESS) :
    5000 ≤ cfg.connectionTimeoutMs ∧ cfg.connectionTimeoutMs ≤ 300000 := by
  simp only [NetworkConfig.validate] at h
  split at h
  · simp at h
  · split at h
    · simp at h
    · split at h
      · simp at h
      · split at h
        · simp at h
        · rename_i h4
          omega

/-- With validation passing, enough memory and no static-IP request, a
connectToWiFi call is exactly its retry loop. -/
theorem connectToWiFi_loop (cfg : NetworkConfig) (env : ConnectEnv)
    (hval : cfg.validate.error = ACError.SUCCESS)
    (hmem : env.memOk = true)
    (hstatic : cfg.useStaticIP = false) :
    connectToWiFi cfg env =
      connectLoop cfg.connectionTimeoutMs cfg.maxRetries env.attempts
        cfg.maxRetries 0 0 := by
  simp [connectToWiFi, hval, hmem, hstatic]

/-- One failing loop iteration: within the retry and budget bounds, a
failed attempt advances the retry counter and the clock (adding the
1000 ms inter-attempt delay when further retries remain). -/
theorem connectLoop_step_fail (budget maxRetries : Nat)
    (attempts : Nat → AttemptSpec) (fuel retries t : Nat)
    (hr : retries < maxRetries) (ht : t % U32 < budget)
    (hfail : (attempts retries).result.error ≠ ACError.SUCCESS) :
    connectLoop budget maxRetries attempts (fuel + 1) retries t =
      connectLoop budget maxRetries attempts fuel (retries + 1)
        (t + (attempts retries).duration +
          (if retries + 1 < maxRetries then 1000 else 0)) := by
  have hnx : ¬ (t % U32 ≥ budget) := Nat.not_le.mpr ht
  simp [connectLoop, hr, hnx, hfail]

/-- One successful loop iteration: within the bounds, a successful attempt
returns its result immediately; the attempt count is retries + 1. -/
theorem connectLoop_step_success (budget maxRetries : Nat)
    (attempts : Nat → AttemptSpec) (fuel retries t : Nat)
    (hr : retries < maxRetries) (ht : t % U32 < budget)
    (hsucc : (attempts retries).result.error = ACError.SUCCESS) :
    connectLoop budget maxRetries attempts (fuel + 1) retries t =
      ((attempts retries).result, retries + 1) := by
  have hnx : ¬ (t % U32 ≥ budget) := Nat.not_le.mpr ht
  simp [connectLoop, hr, hnx, hsucc]

/-- Loop exit on budget exhaustion: once the elapsed time reaches the
budget, the loop stops with WIFI_CONNECT_FAILED, reporting the number of
attempts made so far. -/
theorem connectLoop_exit_expired (budget maxRetries : Nat)
    (attempts : Nat → AttemptSpec) (fuel retries t : Nat)
    (ht : t % U32 ≥ budget) :
    connectLoop budget maxRetries attempts (fuel + 1) retries t =
      (⟨ACError.WIFI_CONNECT_FAILED,
        "Failed to connect after " ++ toString retries ++ " attempts"⟩, retries) := by
  have hnx : ¬ (retries < maxRetries ∧ ¬ (t % U32 ≥ budget)) := by
    intro hcon
    exact hcon.2 ht
  simp only [connectLoop]
  rw [if_neg hnx]

/-- Loop exit on retry exhaustion. -/
theorem connectLoop_exit_retries (budget maxRetries : Nat)
    (attempts : Nat → AttemptSpec) (fuel retries t : Nat)
    (hr : ¬ retries < maxRetries) :
    connectLoop budget maxRetries attempts (fuel + 1) retries t =
      (⟨ACError.WIFI_CONNECT_FAILED,
        "Failed to connect after " ++ toString retries ++ " attempts"⟩, retries) := by
  have hnx : ¬ (retries < maxRetries ∧ ¬ (t % U32 ≥ budget)) := by
    intro hcon
    exact hr hcon.1
  simp only [connectLoop]
  rw [if_neg hnx]

/-- C6: with maxRetries 3, every attempt failing and the wall-clock budget
large enough for all three attempts plus the two 1000 ms inter-attempt
delays, the orchestrator returns WIFI_CONNECT_FAILED and its failure
message reports 3 attempts. -/
theorem C6_three_failed_attempts (cfg : NetworkConfig) (env : ConnectEnv)
    (hval : cfg.validate.error = ACError.SUCCESS)
    (hmem : env.memOk = true)
    (hstatic : cfg.useStaticIP = false)
    (hretr : cfg.maxRetries = 3)
    (hfail : ∀ n, n < 3 → (env.attempts n).result.error ≠ ACError.SUCCESS)
    (hbudget : (env.attempts 0).duration + (env.attempts 1).duration + 2000 <
        cfg.connectionTimeoutMs) :
    connectToWiFi cfg env =
      (⟨ACError.WIFI_CONNECT_FAILED, "Failed to connect after 3 attempts"⟩, 3) := by
  obtain ⟨hlo, hhi⟩ := validate_timeout_range cfg hval
  have hU : U32 = 4294967296 := rfl
  rw [connectToWiFi_loop cfg env hval hmem hstatic, hretr]
  have ht0 : (0:Nat) % U32 < cfg.connectionTimeoutMs := by
    rw [Nat.zero_mod]
    omega
  have s1 : connectLoop cfg.connectionTimeoutMs 3 env.attempts 3 0 0 =
      connectLoop cfg.connectionTimeoutMs 3 env.attempts 2 1
        ((env.attempts 0).duration + 1000) := by
    simpa using connectLoop_step_fail cfg.connectionTimeoutMs 3 env.attempts 2 0 0
      (by omega) ht0 (hfail 0 (by omega))
  have ht1 : ((env.attempts 0).duration + 1000) % U32 < cfg.connectionTimeoutMs := by
    rw [Nat.mod_eq_of_lt (by omega)]
    omega
  have s2 : connectLoop cfg.connectionTimeoutMs 3 env.attempts 2 1
      ((env.attempts 0).duration + 1000) =
      connectLoop cfg.connectionTimeoutMs 3 env.attempts 1 2
        ((env.attempts 0).duration + 1000 + (env.attempts 1).duration + 1000) := by
    simpa using connectLoop_step_fail cfg.connectionTimeoutMs 3 env.attempts 1 1
      ((env.attempts 0).duration + 1000) (by omega) ht1 (hfail 1 (by omega))
  have ht2 : ((env.attempts 0).duration + 1000 + (env.attempts 1).duration + 1000) % U32 <
      cfg.connectionTimeoutMs := by
    rw [Nat.mod_eq_of_lt (by omega)]
    omega
  have s3 : connectLoop cfg.connectionTimeoutMs 3 env.attempts 1 2
      ((env.attempts 0).duration + 1000 + (env.attempts 1).duration + 1000) =
      connectLoop cfg.connectionTimeoutMs 3 env.attempts 0 3
        ((env.attempts 0).duration + 1000 + (env.attempts 1).duration + 1000 +
          (env.attempts 2).duration) := by
    simpa using connectLoop_step_fail cfg.connectionTimeoutMs 3 env.attempts 0 2
      ((env.attempts 0).duration + 1000 + (env.attempts 1).duration + 1000)
      (by omega) ht2 (hfail 2 (by omega))
  rw [s1, s2, s3]
  simp only [connectLoop]
  decide

/-- Witness for C6 on a concrete configuration and environment: budget
30000 ms, three attempts of 10000 ms, all failing. -/
theorem C6_three_failed_attempts_witness :
    connectToWiFi cfgC2 envC3 =
      (⟨ACError.WIFI_CONNECT_FAILED, "Failed to connect after 3 attempts"⟩, 3) :=
  C6_three_failed_attempts cfgC2 envC3 (by decide) rfl rfl rfl
    (by decide) (by decide)

/-- C3 counterexample: with maxRetries 5, a 10000 ms budget (which in the
code is the same value as the per-attempt timeout — there is no separately
configurable overall budget) and the first attempt failing after
10000 ms, the loop stops after exactly 1 attempt because the budget, not
the retry count, is exhausted; yet the returned error kind is
WIFI_CONNECT_FAILED, not WIFI_TIMEOUT as the claim demands. -/
theorem C3_counterexample_budget_limited_error_kind :
    ((connectToWiFi cfgC3 envC3).1.error = ACError.WIFI_CONNECT_FAILED)
    ∧ ((connectToWiFi cfgC3 envC3).1.error ≠ ACError.WIFI_TIMEOUT)
    ∧ ((connectToWiFi cfgC3 envC3).2 = 1)
    ∧ cfgC3.maxRetries = 5
    ∧ ((connectToWiFi cfgC3 envC3).2 < cfgC3.maxRetries) := by
  decide

/-- C3 (amended): when the wall-clock budget (equal to connectionTimeoutMs,
which also serves as the per-attempt timeout) is the limiting factor, the
orchestrator still returns WIFI_CONNECT_FAILED — never WIFI_TIMEOUT — and
reports the number of attempts actually made: with maxRetries 5 and the
first attempt consuming the whole budget, exactly 1 attempt is reported. -/
theorem C3_amended_budget_limited_failure (cfg : NetworkConfig) (env : ConnectEnv)
    (hval : cfg.validate.error = ACError.SUCCESS)
    (hmem : env.memOk = true)
    (hstatic : cfg.useStaticIP = false)
    (hretr : cfg.maxRetries = 5)
    (h0 : (env.attempts 0).result.error ≠ ACError.SUCCESS)
    (hd : cfg.connectionTimeoutMs ≤ (env.attempts 0).duration)
    (hdu : (env.attempts 0).duration + 1000 < U32) :
    connectToWiFi cfg env =
      (⟨ACError.WIFI_CONNECT_FAILED, "Failed to connect after 1 attempts"⟩, 1) := by
  obtain ⟨hlo, hhi⟩ := validate_timeout_range cfg hval
  have hU : U32 = 4294967296 := rfl
  rw [connectToWiFi_loop cfg env hval hmem hstatic, hretr]
  have ht0 : (0:Nat) % U32 < cfg.connectionTimeoutMs := by
    rw [Nat.zero_mod]
    omega
  have s1 : connectLoop cfg.connectionTimeoutMs 5 env.attempts 5 0 0 =
      connectLoop cfg.connectionTimeoutMs 5 env.attempts 4 1
        ((env.attempts 0).duration + 1000) := by
    simpa using connectLoop_step_fail cfg.connectionTimeoutMs 5 env.attempts 4 0 0
      (by omega) ht0 h0
  have ht1 : ((env.attempts 0).duration + 1000) % U32 ≥ cfg.connectionTimeoutMs := by
    rw [Nat.mod_eq_of_lt hdu]
    omega
  have s2 : connectLoop cfg.connectionTimeoutMs 5 env.attempts 4 1
      ((env.attempts 0).duration + 1000) =
      (⟨ACError.WIFI_CONNECT_FAILED,
        "Failed to connect after " ++ toString 1 ++ " attempts"⟩, 1) := by
    simpa using connectLoop_exit_expired cfg.connectionTimeoutMs 5 env.attempts 3 1
      ((env.attempts 0).duration + 1000) ht1
  rw [s1, s2]
  decide

/-- Witness for the amended C3 on the concrete budget-limited scenario. -/
theorem C3_amended_budget_limited_failure_witness :
    connectToWiFi cfgC3 envC3 =
      (⟨ACError.WIFI_CONNECT_FAILED, "Failed to connect after 1 attempts"⟩, 1) :=
  C3_amended_budget_limited_failure cfgC3 envC3 (by decide) rfl rfl rfl
    (by decide) (by decide) (by decide)

/-- C2 counterexample: a concrete run in which attempt 2 of 3 succeeds —
the orchestrator returns success, but the store is completely unchanged:
the matching credential keeps connectionCount 0, so no credential had its
count increased to 1 as the claim demands. -/
theorem C2_counterexample_no_stats_update :
    ((connectToWiFiWithStore cfgC2 envC2 storeC2).1.1.error = ACError.SUCCESS)
    ∧ ((connectToWiFiWithStore cfgC2 envC2 storeC2).2 = storeC2)
    ∧ ((storeC2.credentials.map fun c => c.connectionCount) = [0])
    ∧ ¬ ∃ c ∈ (connectToWiFiWithStore cfgC2 envC2 storeC2).2.credentials,
        c.ssid.stored = "homenet" ∧ c.connectionCount = 1 := by
  decide

/-- C2 (amended): when attempt 2 of 3 succeeds within the budget, the
orchestrator returns the successful result after 2 attempts — but it
performs no credential-store interaction whatsoever: the store after the
call is exactly the store before it (no connectionCount increment, no
timestamp update, no persistence; EnhancedCredential::updateStats has no
caller in the repository). -/
theorem C2_amended_success_no_store_update (cfg : NetworkConfig)
    (env : ConnectEnv) (store : CredentialStore)
    (hval : cfg.validate.error = ACError.SUCCESS)
    (hmem : env.memOk = true)
    (hstatic : cfg.useStaticIP = false)
    (hretr : cfg.maxRetries = 3)
    (h0 : (env.attempts 0).result.error ≠ ACError.SUCCESS)
    (h1 : (env.attempts 1).result.error = ACError.SUCCESS)
    (hbudget : (env.attempts 0).duration + 1000 < cfg.connectionTimeoutMs) :
    ((connectToWiFiWithStore cfg env store).1.1.error = ACError.SUCCESS)
    ∧ ((connectToWiFiWithStore cfg env store).1.2 = 2)
    ∧ ((connectToWiFiWithStore cfg env store).2 = store) := by
  obtain ⟨hlo, hhi⟩ := validate_timeout_range cfg hval
  have hU : U32 = 4294967296 := rfl
  have hmain : connectToWiFi cfg env = ((env.attempts 1).result, 2) := by
    rw [connectToWiFi_loop cfg env hval hmem hstatic, hretr]
    have ht0 : (0:Nat) % U32 < cfg.connectionTimeoutMs := by
      rw [Nat.zero_mod]
      omega
    have s1 : connectLoop cfg.connectionTimeoutMs 3 env.attempts 3 0 0 =
        connectLoop cfg.connectionTimeoutMs 3 env.attempts 2 1
          ((env.attempts 0).duration + 1000) := by
      simpa using connectLoop_step_fail cfg.connectionTimeoutMs 3 env.attempts 2 0 0
        (by omega) ht0 h0
    have ht1 : ((env.attempts 0).duration + 1000) % U32 < cfg.connectionTimeoutMs := by
      rw [Nat.mod_eq_of_lt (by omega)]
      omega
    have s2 : connectLoop cfg.connectionTimeoutMs 3 env.attempts 2 1
        ((env.attempts 0).duration + 1000) = ((env.attempts 1).result, 2) := by
      simpa using connectLoop_step_success cfg.connectionTimeoutMs 3 env.attempts 1 1
        ((env.attempts 0).duration + 1000) (by omega) ht1 h1
    rw [s1, s2]
  refine ⟨?_, ?_, rfl⟩
  · simp [connectToWiFiWithStore, hmain, h1]
  · simp [connectToWiFiWithStore, hmain]

/-- Witness for the amended C2 on the concrete scenario. -/
theorem C2_amended_success_no_store_update_witness :
    ((connectToWiFiWithStore cfgC2 envC2 storeC2).1.1.error = ACError.SUCCESS)
    ∧ ((connectToWiFiWithStore cfgC2 envC2 storeC2).1.2 = 2)
    ∧ ((connectToWiFiWithStore cfgC2 envC2 storeC2).2 = storeC2) :=
  C2_amended_success_no_store_update cfgC2 envC2 storeC2 (by decide) rfl rfl rfl
    (by decide) (by decide) (by decide)

end AutoConnect2
